import Mathlib

/-! Verification of the telegram-discord-bridge core against its specification.

The development shallowly embeds the functions of `src/forwarder.py` and
`src/bridge/discord_handler/core.py`.  External effects (file system probes,
process liveness probes, network sends, media downloads) are passed in as
explicit outcome parameters, so every embedded operation is a total,
executable Lean function of its inputs and of the outcomes of the external
calls it performs, in the order the Python code performs them. -/

namespace Bridge

/-- Modelled from the spec: `ProcessStateEnum` (module `bridge.enums`, not under
`src/`).  The spec defines the enumeration {STOPPED, RUNNING, ORPHANED}; the
source annotates `determine_process_state` as returning `Tuple[str, int]` and
compares the state against the literal `"running"` (forwarder.py line 37), so
the states are embedded as their lower-case string values. -/
def STOPPED : String := "stopped"

/-- Modelled from the spec: the RUNNING process state, as its string value. -/
def RUNNING : String := "running"

/-- Modelled from the spec: the ORPHANED process state, as its string value. -/
def ORPHANED : String := "orphaned"

/-- Outcome of opening and reading the PID file inside the try-block of
`determine_process_state` (forwarder.py lines 87-88): the file yields a pid,
or `open` raises FileNotFoundError, or `open` raises PermissionError.  In the
two raising cases the local `pid` variable still holds its initial value 0. -/
inductive ReadOutcome
  | ok (pid : Nat)
  | fileVanished
  | permDenied
deriving DecidableEq

/-- Outcome of the liveness probe of a pid (forwarder.py line 92,
`psutil.pid_exists`): the probe answers alive or dead, or raises
ProcessLookupError, or raises PermissionError; the raised cases are handled
by the surrounding try-block of `determine_process_state`. -/
inductive ProbeOutcome
  | alive
  | dead
  | noSuchProcess
  | permDenied
deriving DecidableEq

/-- Embedding of `determine_process_state` (forwarder.py lines 60-108).
`markerExists` is the `os.path.isfile` test; `rd` is the outcome of reading
the marker; `probe` is the liveness probe applied to the pid that was read. -/
def determine_process_state (markerExists : Bool) (rd : ReadOutcome)
    (probe : Nat → ProbeOutcome) : String × Nat :=
  if markerExists = false then (STOPPED, 0)
  else
    match rd with
    | .fileVanished => (STOPPED, 0)
    | .permDenied => (RUNNING, 0)
    | .ok pid =>
      match probe pid with
      | .dead => (STOPPED, 0)
      | .alive => (RUNNING, pid)
      | .noSuchProcess => (ORPHANED, 0)
      | .permDenied => (RUNNING, pid)

/-- Embedding of `create_pid_file` (forwarder.py lines 27-46).  `ownPid` is
`os.getpid()`; `writable` is whether the marker write succeeds (an `OSError`
on write reaches `sys.exit(message)`, which terminates with status 1).  The
result is either a process exit code or the marker path together with the pid
written into the marker. -/
def create_pid_file (appName : String) (ownPid : Nat) (markerExists : Bool)
    (rd : ReadOutcome) (probe : Nat → ProbeOutcome) (writable : Bool) :
    Except Nat (String × Nat) :=
  let botPidFile := appName ++ ".pid"
  let st := determine_process_state markerExists rd probe
  if st.1 = RUNNING then Except.error 1
  else if writable then Except.ok (botPidFile, ownPid)
  else Except.error 1

/-- Python exception escaping an embedded operation to its caller. -/
inductive PyExc
  | permissionError
deriving DecidableEq

/-- Outcome of `os.kill(pid, signal.SIGINT)` (forwarder.py line 122): the
signal is delivered, or the call raises ProcessLookupError, or it raises
PermissionError. -/
inductive KillOutcome
  | delivered
  | noSuchProcess
  | permDenied
deriving DecidableEq

/-- Observable result of `stop_bridge` when it returns normally. -/
inductive StopResult
  | noopWarned
  | signalled (pid : Nat)
  | loggedVanished (pid : Nat)
deriving DecidableEq

/-- Embedding of `stop_bridge` (forwarder.py lines 111-127).  The state is
determined from the marker; a STOPPED state returns after a warning; otherwise
SIGINT is sent to the recorded pid, catching only ProcessLookupError — a
PermissionError from `os.kill` is not caught and propagates. -/
def stop_bridge (markerExists : Bool) (rd : ReadOutcome)
    (probe : Nat → ProbeOutcome) (kill : Nat → KillOutcome) :
    Except PyExc StopResult :=
  let st := determine_process_state markerExists rd probe
  if st.1 = STOPPED then Except.ok StopResult.noopWarned
  else
    match kill st.2 with
    | .delivered => Except.ok (StopResult.signalled st.2)
    | .noSuchProcess => Except.ok (StopResult.loggedVanished st.2)
    | .permDenied => Except.error PyExc.permissionError

/-- Embedding of the fatal gates on the boot path of `controller`
(forwarder.py lines 346-374) together with `create_pid_file` (called from
`start_bridge`, line 262) and the login-failure exit of `start_discord`
(core.py lines 40-43).  The result is `some code` when the process exits
during start with that status, `none` when start proceeds.  Gate order
follows the source: background-mode preconditions, then marker acquisition,
then session authentication. -/
def controller_boot (background posix console : Bool) (appName : String)
    (ownPid : Nat) (markerExists : Bool) (rd : ReadOutcome)
    (probe : Nat → ProbeOutcome) (writable loginFailure : Bool) : Option Nat :=
  if background && !posix then some 1
  else if background && console then some 1
  else
    match create_pid_file appName ownPid markerExists rd probe writable with
    | .error code => some code
    | .ok _ => if loginFailure then some 1 else none

/-- Claim C3: `determine_process_state` is a pure function of marker existence
and the liveness probe of the recorded pid: marker absent gives (STOPPED, 0);
marker present with the recorded pid alive gives (RUNNING, pid); pid confirmed
gone gives (STOPPED, 0), exposed as ORPHANED when the probe raises a
no-such-process error; and a permission-denied probe gives (RUNNING, pid) with
the pid recorded in the marker. -/
theorem c3_determine_state (rd : ReadOutcome) (probe : Nat → ProbeOutcome)
    (pid : Nat) :
    determine_process_state false rd probe = (STOPPED, 0) ∧
    (probe pid = ProbeOutcome.alive →
      determine_process_state true (ReadOutcome.ok pid) probe = (RUNNING, pid)) ∧
    (probe pid = ProbeOutcome.dead →
      determine_process_state true (ReadOutcome.ok pid) probe = (STOPPED, 0)) ∧
    (probe pid = ProbeOutcome.noSuchProcess →
      determine_process_state true (ReadOutcome.ok pid) probe = (ORPHANED, 0)) ∧
    (probe pid = ProbeOutcome.permDenied →
      determine_process_state true (ReadOutcome.ok pid) probe = (RUNNING, pid)) := by
  refine ⟨rfl, ?_, ?_, ?_, ?_⟩ <;>
    · intro h
      simp [determine_process_state, h]

/-- Witness for C3 at concrete probe outcomes. -/
theorem c3_determine_state_witness :
    ((fun _ => ProbeOutcome.alive) 7 = ProbeOutcome.alive) ∧
    determine_process_state true (ReadOutcome.ok 7) (fun _ => ProbeOutcome.alive) =
      (RUNNING, 7) ∧
    determine_process_state true (ReadOutcome.ok 7) (fun _ => ProbeOutcome.permDenied) =
      (RUNNING, 7) :=
  ⟨by decide,
   (c3_determine_state ReadOutcome.fileVanished (fun _ => ProbeOutcome.alive) 7).2.1
     (by decide),
   (c3_determine_state ReadOutcome.fileVanished (fun _ => ProbeOutcome.permDenied) 7).2.2.2.2
     (by decide)⟩

/-- Claim C7: `create_pid_file` exits with status 1 whenever
`determine_process_state` reports RUNNING; in every other state (including a
marker whose recorded pid is confirmed not running) it writes a marker
containing the caller's own pid and returns the marker path; an unwritable
marker file is fatal to process start. -/
theorem c7_create_pid_file (appName : String) (ownPid : Nat)
    (markerExists : Bool) (rd : ReadOutcome) (probe : Nat → ProbeOutcome) :
    ((determine_process_state markerExists rd probe).1 = RUNNING →
      ∀ w : Bool, create_pid_file appName ownPid markerExists rd probe w =
        Except.error 1) ∧
    ((determine_process_state markerExists rd probe).1 ≠ RUNNING →
      create_pid_file appName ownPid markerExists rd probe true =
        Except.ok (appName ++ ".pid", ownPid)) ∧
    ((determine_process_state markerExists rd probe).1 ≠ RUNNING →
      create_pid_file appName ownPid markerExists rd probe false =
        Except.error 1) := by
  refine ⟨?_, ?_, ?_⟩ <;>
    · intro h
      first
      | intro w; simp [create_pid_file, h]
      | simp [create_pid_file, h]

/-- Witness for C7: a marker recording a pid confirmed not running lets a new
acquire succeed with the caller's own pid, and an unwritable marker is fatal. -/
theorem c7_create_pid_file_witness :
    ((determine_process_state true (ReadOutcome.ok 9)
        (fun _ => ProbeOutcome.dead)).1 ≠ RUNNING) ∧
    create_pid_file "bridge" 42 true (ReadOutcome.ok 9)
        (fun _ => ProbeOutcome.dead) true = Except.ok ("bridge.pid", 42) ∧
    create_pid_file "bridge" 42 true (ReadOutcome.ok 9)
        (fun _ => ProbeOutcome.dead) false = Except.error 1 :=
  ⟨by decide,
   (c7_create_pid_file "bridge" 42 true (ReadOutcome.ok 9)
     (fun _ => ProbeOutcome.dead)).2.1 (by decide),
   (c7_create_pid_file "bridge" 42 true (ReadOutcome.ok 9)
     (fun _ => ProbeOutcome.dead)).2.2 (by decide)⟩

/-- Claim C8 counterexample: with a marker recording a live pid (state
RUNNING), a permission-denied outcome of the kill call makes `stop_bridge`
raise PermissionError to its caller, contradicting the claim that any failure
to deliver the signal is logged and never raised. -/
theorem c8_stop_bridge_cex :
    (determine_process_state true (ReadOutcome.ok 42)
        (fun _ => ProbeOutcome.alive)).1 = RUNNING ∧
    stop_bridge true (ReadOutcome.ok 42) (fun _ => ProbeOutcome.alive)
        (fun _ => KillOutcome.permDenied) =
      Except.error PyExc.permissionError :=
  ⟨rfl, rfl⟩

/-- Claim C8 as amended: `stop_bridge` determines the state from the marker;
STOPPED logs a no-op warning and returns without signalling; RUNNING delivers
SIGINT to the recorded pid; a delivery failure because the process vanished
(no-such-process) is logged and not raised, while a permission-denied failure
of the kill call is not caught and propagates to the caller. -/
theorem c8_stop_bridge (markerExists : Bool) (rd : ReadOutcome)
    (probe : Nat → ProbeOutcome) (kill : Nat → KillOutcome) :
    ((determine_process_state markerExists rd probe).1 = STOPPED →
      stop_bridge markerExists rd probe kill = Except.ok StopResult.noopWarned) ∧
    ((determine_process_state markerExists rd probe).1 = RUNNING →
      (kill (determine_process_state markerExists rd probe).2 = KillOutcome.delivered →
        stop_bridge markerExists rd probe kill =
          Except.ok (StopResult.signalled
            (determine_process_state markerExists rd probe).2)) ∧
      (kill (determine_process_state markerExists rd probe).2 = KillOutcome.noSuchProcess →
        stop_bridge markerExists rd probe kill =
          Except.ok (StopResult.loggedVanished
            (determine_process_state markerExists rd probe).2)) ∧
      (kill (determine_process_state markerExists rd probe).2 = KillOutcome.permDenied →
        stop_bridge markerExists rd probe kill =
          Except.error PyExc.permissionError)) := by
  constructor
  · intro h
    simp [stop_bridge, h]
  · intro h
    have hne : (determine_process_state markerExists rd probe).1 ≠ STOPPED := by
      rw [h]; decide
    refine ⟨?_, ?_, ?_⟩ <;>
      · intro hk
        simp [stop_bridge, hne, hk]

/-- Witness for C8 at concrete states and kill outcomes. -/
theorem c8_stop_bridge_witness :
    stop_bridge true (ReadOutcome.ok 5) (fun _ => ProbeOutcome.alive)
        (fun _ => KillOutcome.delivered) = Except.ok (StopResult.signalled 5) ∧
    stop_bridge false (ReadOutcome.ok 5) (fun _ => ProbeOutcome.alive)
        (fun _ => KillOutcome.delivered) = Except.ok StopResult.noopWarned :=
  ⟨((c8_stop_bridge true (ReadOutcome.ok 5) (fun _ => ProbeOutcome.alive)
      (fun _ => KillOutcome.delivered)).2 (by decide)).1 (by decide),
   (c8_stop_bridge false (ReadOutcome.ok 5) (fun _ => ProbeOutcome.alive)
      (fun _ => KillOutcome.delivered)).1 (by decide)⟩

/-- Claim C9 counterexample: with no other instance running, background mode
off and no login failure, an unwritable marker file still terminates the
start with exit status 1 — an exit-1 condition outside the three listed by
the claim. -/
theorem c9_exit_codes_cex :
    controller_boot false true false "bridge" 7 false (ReadOutcome.ok 0)
        (fun _ => ProbeOutcome.dead) false false = some 1 ∧
    (determine_process_state false (ReadOutcome.ok 0)
        (fun _ => ProbeOutcome.dead)).1 ≠ RUNNING := by
  decide

/-- Claim C9 as amended: the start path exits with status 1 exactly when
another instance is RUNNING, or the marker file cannot be written, or
background mode is requested on a non-POSIX host or with console logging
enabled, or session authentication fails; and every such exit has code 1. -/
theorem c9_exit_codes (background posix console : Bool) (appName : String)
    (ownPid : Nat) (markerExists : Bool) (rd : ReadOutcome)
    (probe : Nat → ProbeOutcome) (writable loginFailure : Bool) :
    (controller_boot background posix console appName ownPid markerExists rd
        probe writable loginFailure = some 1 ↔
      ((background = true ∧ (posix = false ∨ console = true)) ∨
        (determine_process_state markerExists rd probe).1 = RUNNING ∨
        writable = false ∨ loginFailure = true)) ∧
    (∀ n : Nat, controller_boot background posix console appName ownPid
        markerExists rd probe writable loginFailure = some n → n = 1) := by
  have hc : ∀ w : Bool,
      create_pid_file appName ownPid markerExists rd probe w =
        (if (determine_process_state markerExists rd probe).1 = RUNNING then
          Except.error 1
         else if w then Except.ok (appName ++ ".pid", ownPid)
         else Except.error 1) := by
    intro w; rfl
  constructor
  · unfold controller_boot
    rw [hc]
    by_cases hr : (determine_process_state markerExists rd probe).1 = RUNNING <;>
      cases background <;> cases posix <;> cases console <;> cases writable <;>
        cases loginFailure <;> simp [hr]
  · intro n
    unfold controller_boot
    rw [hc]
    by_cases hr : (determine_process_state markerExists rd probe).1 = RUNNING <;>
      cases background <;> cases posix <;> cases console <;> cases writable <;>
        cases loginFailure <;> simp [hr] <;> omega

/-- Witness for C9 at concrete inputs: a RUNNING marker exits with 1, and a
clean start exits the gate with no exit code. -/
theorem c9_exit_codes_witness :
    controller_boot false true false "bridge" 7 true (ReadOutcome.ok 3)
        (fun _ => ProbeOutcome.alive) true false = some 1 ∧
    controller_boot false true false "bridge" 7 false (ReadOutcome.ok 0)
        (fun _ => ProbeOutcome.dead) true false = none :=
  ⟨((c9_exit_codes false true false "bridge" 7 true (ReadOutcome.ok 3)
      (fun _ => ProbeOutcome.alive) true false).1).2 (by decide),
   by
    rcases h : controller_boot false true false "bridge" 7 false (ReadOutcome.ok 0)
        (fun _ => ProbeOutcome.dead) true false with _ | n
    · rfl
    · have h1 := (c9_exit_codes false true false "bridge" 7 false (ReadOutcome.ok 0)
        (fun _ => ProbeOutcome.dead) true false).2 n h
      subst h1
      have h2 := (c9_exit_codes false true false "bridge" 7 false (ReadOutcome.ok 0)
        (fun _ => ProbeOutcome.dead) true false).1.mp h
      revert h2; decide⟩

/-- Fuel-driven chunking of a character list into slices of `m + 1` characters;
the fuel is initialised with the list length, which bounds the number of
slices. -/
def chunkCharsGo (m : Nat) : Nat → List Char → List (List Char)
  | _, [] => []
  | 0, cs => [cs]
  | fuel + 1, c :: cs => (c :: cs.take m) :: chunkCharsGo m fuel (cs.drop m)

/-- Modelled from the spec: `split_message` (module `bridge.utils`, not under
`src/`).  The spec requires the body to be split into an ordered, finite
sequence of chunks, each not exceeding the destination platform's maximum
message length, whose concatenation reconstructs the body; the maximum length
is passed here as the parameter `maxLen` (effectively at least 1). -/
def split_message (maxLen : Nat) (text : String) : List String :=
  (chunkCharsGo (maxLen - 1) text.toList.length text.toList).map String.mk

/-- Outcome of one `discord_channel.send` call in `forward_to_discord`
(core.py lines 122 and 129): success, or a raised `discord.Forbidden`, or a
raised `discord.HTTPException` — the two exception kinds caught by the
function (lines 131-136). -/
inductive SendOutcome
  | ok
  | forbidden
  | httpError
deriving DecidableEq

/-- Truth of a send outcome being a success. -/
def isOk : SendOutcome → Bool
  | .ok => true
  | _ => false

/-- One successful outbound plain send: the chunk text, whether the send
carried the attached image file, and the reply reference passed to it. -/
structure PlainSend where
  content : String
  hasFile : Bool
  ref : Option Nat
deriving DecidableEq

/-- Sends of the chunk loop of `forward_to_discord` (core.py lines 128-130):
each remaining part is sent with the same `reference`; the first raising send
aborts the loop and the function returns the messages sent so far. -/
def sendLoop (outcome : Nat → SendOutcome) (reference : Option Nat) (i : Nat) :
    List String → List PlainSend
  | [] => []
  | p :: ps =>
    match outcome i with
    | .ok => ⟨p, false, reference⟩ :: sendLoop outcome reference (i + 1) ps
    | _ => []

/-- Embedding of `forward_to_discord` (core.py lines 114-138).  The body is
split; with an image file the first chunk is sent with the file, then the
remaining chunks are sent in a loop; every send receives the same
`reference`.  `Forbidden` and `HTTPException` are caught, so the function
returns the messages sent before the failure; `none` models the uncaught
IndexError of `message_parts[0]` when an image is given with no chunks. -/
def forward_to_discord (maxLen : Nat) (messageText : String) (imageFile : Bool)
    (reference : Option Nat) (outcome : Nat → SendOutcome) :
    Option (List PlainSend) :=
  let parts := split_message maxLen messageText
  if imageFile then
    match parts, outcome 0 with
    | [], _ => none
    | p :: ps, .ok => some (⟨p, true, reference⟩ :: sendLoop outcome reference 1 ps)
    | _ :: _, _ => some []
  else some (sendLoop outcome reference 0 parts)

/-- Embedding of `fetch_discord_reference` (core.py lines 141-169).
`discordMessageId` is the result of the history-store lookup for the reply
target; `history` is the outcome of iterating `discord_channel.history`
around that id (`Except.error` models a raised `discord.NotFound`, which is
caught).  The `limit=10` argument is embedded as `List.take 10` of the
channel's around-window; the reference resolves only when the mapped id is
found among those messages. -/
def fetch_discord_reference (discordMessageId : Option Nat)
    (history : Except Unit (List Nat)) : Option Nat :=
  match discordMessageId with
  | none => none
  | some did =>
    match history with
    | .error _ => none
    | .ok msgs =>
      match (msgs.take 10).find? (fun m => m == did) with
      | none => none
      | some m => some m

/-- List elements paired with their position, counting from `i`. -/
def withIdx {α : Type} (i : Nat) : List α → List (Nat × α)
  | [] => []
  | a :: as => (i, a) :: withIdx (i + 1) as

/-- Chunks delivered successfully before the first failing send: the longest
initial run of parts whose send outcomes are all successes. -/
def deliveredParts (outcome : Nat → SendOutcome) (parts : List String) :
    List String :=
  ((withIdx 0 parts).takeWhile (fun pi => isOk (outcome pi.1))).map Prod.snd

/-- Every message produced by the chunk loop carries the reference the loop
was given. -/
theorem sendLoop_ref (outcome : Nat → SendOutcome) (r : Option Nat) :
    ∀ (ps : List String) (i : Nat), ∀ s ∈ sendLoop outcome r i ps, s.ref = r := by
  intro ps
  induction ps with
  | nil => intro i s hs; simp [sendLoop] at hs
  | cons p ps ih =>
    intro i s hs
    cases h : outcome i with
    | ok =>
      simp only [sendLoop, h] at hs
      rcases List.mem_cons.mp hs with hs | hs
      · rw [hs]
      · exact ih (i + 1) s hs
    | forbidden => simp [sendLoop, h] at hs
    | httpError => simp [sendLoop, h] at hs

/-- Contents produced by the chunk loop are exactly the parts delivered
before the first failing send. -/
theorem sendLoop_contents (outcome : Nat → SendOutcome) (r : Option Nat) :
    ∀ (ps : List String) (i : Nat),
      (sendLoop outcome r i ps).map PlainSend.content =
        ((withIdx i ps).takeWhile (fun pi => isOk (outcome pi.1))).map Prod.snd := by
  intro ps
  induction ps with
  | nil => intro i; simp [sendLoop, withIdx]
  | cons p ps ih =>
    intro i
    cases h : outcome i with
    | ok => simp [sendLoop, withIdx, List.takeWhile_cons, h, isOk, ih (i + 1)]
    | forbidden => simp [sendLoop, withIdx, List.takeWhile_cons, h, isOk]
    | httpError => simp [sendLoop, withIdx, List.takeWhile_cons, h, isOk]

/-- Claim C1 counterexample: with a recorded reply link (reference `some 7`)
and a body of two chunks, the second outbound chunk send also carries the
reply target, contradicting the claim that only the first chunk does. -/
theorem c1_reply_target_cex :
    forward_to_discord 1 "ab" false (some 7) (fun _ => SendOutcome.ok) =
      some [⟨"a", false, some 7⟩, ⟨"b", false, some 7⟩] ∧
    ((forward_to_discord 1 "ab" false (some 7)
        (fun _ => SendOutcome.ok)).getD []).map PlainSend.ref =
      [some 7, some 7] := by
  decide

/-- Claim C1 as amended: the resolved destination reply target is attached to
every outbound chunk send of the event, first and later chunks alike; if no
link is recorded, `fetch_discord_reference` returns `none`, and delivery
proceeds with that reference on every chunk and without raising. -/
theorem c1_reply_target (maxLen : Nat) (text : String) (img : Bool)
    (r : Option Nat) (outcome : Nat → SendOutcome)
    (hist : Except Unit (List Nat))
    (h : img = true → split_message maxLen text ≠ []) :
    (∀ s ∈ (forward_to_discord maxLen text img r outcome).getD [], s.ref = r) ∧
    fetch_discord_reference none hist = none ∧
    (forward_to_discord maxLen text img r outcome).isSome = true := by
  refine ⟨?_, rfl, ?_⟩
  · cases img with
    | false =>
      intro s hs
      simp only [forward_to_discord, Bool.false_eq_true, if_false,
        Option.getD_some] at hs
      exact sendLoop_ref outcome r _ 0 s hs
    | true =>
      intro s hs
      rcases hp : split_message maxLen text with _ | ⟨p, ps⟩
      · exact absurd hp (h rfl)
      · simp only [forward_to_discord, hp, if_true] at hs
        cases ho : outcome 0 with
        | ok =>
          simp only [ho, Option.getD_some] at hs
          rcases List.mem_cons.mp hs with hs | hs
          · rw [hs]
          · exact sendLoop_ref outcome r ps 1 s hs
        | forbidden => simp [ho] at hs
        | httpError => simp [ho] at hs
  · cases img with
    | false => simp [forward_to_discord]
    | true =>
      rcases hp : split_message maxLen text with _ | ⟨p, ps⟩
      · exact absurd hp (h rfl)
      · cases ho : outcome 0 <;> simp [forward_to_discord, hp, ho]

/-- Witness for C1 at a concrete two-chunk event, with and without a link. -/
theorem c1_reply_target_witness :
    (∀ s ∈ (forward_to_discord 1 "ab" false (some 3)
        (fun _ => SendOutcome.ok)).getD [], s.ref = some 3) ∧
    fetch_discord_reference none (Except.error ()) = none ∧
    (forward_to_discord 1 "ab" false (some 3)
        (fun _ => SendOutcome.ok)).isSome = true :=
  c1_reply_target 1 "ab" false (some 3) (fun _ => SendOutcome.ok)
    (Except.error ()) (by decide)

/-- Claim C5: each plain chunk send failing with a permission or transport
error is caught, the operation returns normally with exactly the receipts of
the chunks sent before the failure, and a failing first chunk yields the
empty list. -/
theorem c5_partial_delivery (maxLen : Nat) (text : String) (img : Bool)
    (r : Option Nat) (outcome : Nat → SendOutcome)
    (h : img = true → split_message maxLen text ≠ []) :
    ∃ l, forward_to_discord maxLen text img r outcome = some l ∧
      l.map PlainSend.content = deliveredParts outcome (split_message maxLen text) ∧
      (isOk (outcome 0) = false → l = []) := by
  cases img with
  | false =>
    refine ⟨sendLoop outcome r 0 (split_message maxLen text), rfl, ?_, ?_⟩
    · exact sendLoop_contents outcome r _ 0
    · intro h0
      rcases hp : split_message maxLen text with _ | ⟨p, ps⟩
      · simp [sendLoop]
      · cases ho : outcome 0 with
        | ok => rw [ho] at h0; simp [isOk] at h0
        | forbidden => simp [sendLoop, ho]
        | httpError => simp [sendLoop, ho]
  | true =>
    rcases hp : split_message maxLen text with _ | ⟨p, ps⟩
    · exact absurd hp (h rfl)
    · cases ho : outcome 0 with
      | ok =>
        refine ⟨⟨p, true, r⟩ :: sendLoop outcome r 1 ps, ?_, ?_, ?_⟩
        · simp [forward_to_discord, hp, ho]
        · simp [deliveredParts, hp, withIdx, List.takeWhile_cons, ho, isOk,
            sendLoop_contents outcome r ps 1]
        · intro h0; simp [isOk] at h0
      | forbidden =>
        refine ⟨[], ?_, ?_, fun _ => rfl⟩
        · simp [forward_to_discord, hp, ho]
        · simp [deliveredParts, hp, withIdx, List.takeWhile_cons, ho, isOk]
      | httpError =>
        refine ⟨[], ?_, ?_, fun _ => rfl⟩
        · simp [forward_to_discord, hp, ho]
        · simp [deliveredParts, hp, withIdx, List.takeWhile_cons, ho, isOk]

/-- Witness for C5 at a concrete two-chunk event whose first send is refused:
the returned receipt list is empty. -/
theorem c5_partial_delivery_witness :
    ∃ l, forward_to_discord 1 "ab" false none
        (fun i => if i = 0 then SendOutcome.forbidden else SendOutcome.ok) =
          some l ∧
      l.map PlainSend.content =
        deliveredParts
          (fun i => if i = 0 then SendOutcome.forbidden else SendOutcome.ok)
          (split_message 1 "ab") ∧
      (isOk ((fun i => if i = 0 then SendOutcome.forbidden else SendOutcome.ok) 0)
          = false → l = []) :=
  c5_partial_delivery 1 "ab" false none
    (fun i => if i = 0 then SendOutcome.forbidden else SendOutcome.ok)
    (by decide)

/-- Claim C10: `fetch_discord_reference` resolves a reply reference exactly
when a link is recorded, the history iteration succeeds, and the mapped
destination id is among the at most 10 messages fetched around it; in every
other case (no link, not-found history, id outside the window) it returns
`none` without raising. -/
theorem c10_reference_window (lookup : Option Nat)
    (hist : Except Unit (List Nat)) (r : Nat) :
    fetch_discord_reference lookup hist = some r ↔
      ∃ did l, lookup = some did ∧ hist = Except.ok l ∧
        did ∈ l.take 10 ∧ r = did := by
  cases lookup with
  | none => simp [fetch_discord_reference]
  | some did =>
    cases hist with
    | error e => simp [fetch_discord_reference]
    | ok l =>
      simp only [fetch_discord_reference]
      cases hf : (l.take 10).find? (fun m => m == did) with
      | none =>
        have hnot : did ∉ l.take 10 := by
          intro hmem
          have hq := List.find?_eq_none.mp hf did hmem
          simp at hq
        simp only [hf]
        constructor
        · intro hcon; cases hcon
        · rintro ⟨did2, l2, h1, h2, h3, h4⟩
          injection h1 with h1e
          injection h2 with h2e
          subst h1e; subst h2e
          exact absurd h3 hnot
      | some m =>
        have hm : m = did := by simpa using List.find?_some hf
        subst hm
        have hmem : m ∈ l.take 10 := List.mem_of_find?_eq_some hf
        simp only [hf]
        constructor
        · intro hsr
          injection hsr with hmr
          exact ⟨m, l, rfl, rfl, hmem, hmr.symm⟩
        · rintro ⟨did2, l2, h1, h2, h3, rfl⟩
          injection h1 with h1e
          rw [h1e]

/-- Outcome of one media download in `forward_embed_to_discord`
(`download_profile_photo` on lines 64, 65, 86 and `download_media` on line
96): a local path, or a `None` return (no photo/media — the later
`discord.File(str(None))` construction then raises), or a raised exception
during the download itself. -/
inductive DlResult
  | ok (p : String)
  | noPhoto
  | raised
deriving DecidableEq

/-- Downloaded paths contributed by one download outcome. -/
def dlPath : DlResult → List String
  | .ok p => [p]
  | _ => []

/-- Environment of one `forward_embed_to_discord` call: the shape of the
event and the outcomes of its external calls, in source order. -/
structure EmbedEnv where
  isForward : Bool
  forwardMetaOk : Bool
  plainMetaOk : Bool
  dlThumb : DlResult
  dlAuthor : DlResult
  hasMedia : Bool
  dlMedia : DlResult
  mediaDocOk : Bool
  sendOk : Nat → Bool

/-- One successful rich embed send: the chunk placed in the embed description
and the files attached to the send. -/
structure EmbedSend where
  description : String
  files : List String
deriving DecidableEq

/-- Result of `forward_embed_to_discord`: files downloaded to disk, files
attached to the send (`files` list), the successful embed sends, and the
downloaded files still on disk after the `finally` cleanup. -/
structure EmbedRun where
  downloaded : List String
  attached : List String
  sent : List EmbedSend
  disk : List String
deriving DecidableEq

/-- Setup phase of `forward_embed_to_discord` (core.py lines 62-94): the
forward branch downloads the forward-chat thumbnail then the author photo,
builds the provenance urls (which raises when the forward chat has no
username), and constructs the two `discord.File`s before appending both; the
plain branch builds the url first, then downloads the author photo.  The
result is (downloaded paths, attached paths, whether the phase completed);
any raise is caught by the function's `except` clause. -/
def embedSetup (env : EmbedEnv) : List String × List String × Bool :=
  if env.isForward then
    match env.dlThumb with
    | .raised => ([], [], false)
    | thumbRes =>
      match env.dlAuthor with
      | .raised => (dlPath thumbRes, [], false)
      | authorRes =>
        if env.forwardMetaOk = false then
          (dlPath thumbRes ++ dlPath authorRes, [], false)
        else
          match authorRes, thumbRes with
          | .ok ap, .ok tp => ([tp, ap], [ap, tp], true)
          | ar, tr => (dlPath tr ++ dlPath ar, [], false)
  else
    if env.plainMetaOk = false then ([], [], false)
    else
      match env.dlAuthor with
      | .raised => ([], [], false)
      | .noPhoto => ([], [], false)
      | .ok p => ([p], [p], true)

/-- Media phase of `forward_embed_to_discord` (core.py lines 95-100): the
message media is downloaded and appended to the attached files before the
mime-type field access, which raises when the media carries no document. -/
def embedSetupMedia (env : EmbedEnv) : List String × List String × Bool :=
  match embedSetup env with
  | (dl, att, false) => (dl, att, false)
  | (dl, att, true) =>
    if env.hasMedia then
      match env.dlMedia with
      | .raised => (dl, att, false)
      | .noPhoto => (dl, att, false)
      | .ok p =>
        if env.mediaDocOk then (dl ++ [p], att ++ [p], true)
        else (dl ++ [p], att ++ [p], false)
    else (dl, att, true)

/-- Send loop of `forward_embed_to_discord` (core.py lines 102-105): every
chunk is sent as the description of the same embed with the files attached;
the first raising send aborts the loop. -/
def embedSendLoop (sendOk : Nat → Bool) (files : List String) (i : Nat) :
    List String → List EmbedSend
  | [] => []
  | p :: ps =>
    if sendOk i then ⟨p, files⟩ :: embedSendLoop sendOk files (i + 1) ps
    else []

/-- Embedding of `forward_embed_to_discord` (core.py lines 56-112).  Any
exception in the try-block is caught and the messages sent so far are
returned; the `finally` clause removes every attached file from disk. -/
def forward_embed_to_discord (env : EmbedEnv) (maxLen : Nat) (text : String) :
    EmbedRun :=
  match embedSetupMedia env with
  | (dl, att, ok) =>
    { downloaded := dl
      attached := att
      sent := if ok then embedSendLoop env.sendOk att 0 (split_message maxLen text)
              else []
      disk := dl.filter (fun p => decide (p ∉ att)) }

/-- The embed send loop emits, for every part delivered before the first
failing send, one embed send carrying that part and the given files. -/
theorem embedSendLoop_eq (sendOk : Nat → Bool) (files : List String) :
    ∀ (ps : List String) (i : Nat),
      embedSendLoop sendOk files i ps =
        ((withIdx i ps).takeWhile (fun pi => sendOk pi.1)).map
          (fun pi => ⟨pi.2, files⟩) := by
  intro ps
  induction ps with
  | nil => intro i; simp [embedSendLoop, withIdx]
  | cons p ps ih =>
    intro i
    cases h : sendOk i with
    | true => simp [embedSendLoop, withIdx, List.takeWhile_cons, h, ih (i + 1)]
    | false => simp [embedSendLoop, withIdx, List.takeWhile_cons, h]

/-- Claim C2 counterexample: a plain-channel post whose body splits into two
chunks produces two rich embed sends, each carrying the attached files, not
one rich send followed by a plain send. -/
theorem c2_embed_cex :
    (forward_embed_to_discord
        ⟨false, true, true, DlResult.noPhoto, DlResult.ok "A", false,
          DlResult.noPhoto, true, fun _ => true⟩ 1 "ab").sent =
      [⟨"a", ["A"]⟩, ⟨"b", ["A"]⟩] ∧
    (forward_embed_to_discord
        ⟨false, true, true, DlResult.noPhoto, DlResult.ok "A", false,
          DlResult.noPhoto, true, fun _ => true⟩ 1 "ab").sent.length = 2 := by
  decide

/-- Claim C2 as amended: when the setup phase completes, every chunk of the
body up to the first failing send is delivered as a rich embed send whose
description is that chunk and which re-attaches the same media files; no
plain sends are emitted; when the setup phase raises, no send is emitted. -/
theorem c2_embed_each_chunk (env : EmbedEnv) (maxLen : Nat) (text : String) :
    (forward_embed_to_discord env maxLen text).sent =
      if (embedSetupMedia env).2.2 = true then
        ((withIdx 0 (split_message maxLen text)).takeWhile
            (fun pi => env.sendOk pi.1)).map
          (fun pi => ⟨pi.2, (embedSetupMedia env).2.1⟩)
      else [] := by
  rcases hm : embedSetupMedia env with ⟨dl, att, ok⟩
  cases ok with
  | true => simp [forward_embed_to_discord, hm, embedSendLoop_eq]
  | false => simp [forward_embed_to_discord, hm]

/-- Claim C4: on every exit path of `forward_embed_to_discord` — all chunks
sent, a send raising, or a download raising after earlier downloads — every
downloaded media file that was attached is removed from disk before the
function returns. -/
theorem c4_cleanup (env : EmbedEnv) (maxLen : Nat) (text : String)
    (p : String) (h : p ∈ (forward_embed_to_discord env maxLen text).attached) :
    p ∉ (forward_embed_to_discord env maxLen text).disk := by
  rcases hm : embedSetupMedia env with ⟨dl, att, ok⟩
  rw [forward_embed_to_discord, hm] at h ⊢
  intro hd
  rcases List.mem_filter.mp hd with ⟨_, hdec⟩
  exact (of_decide_eq_true hdec) h

/-- Witness for C4: the attached author photo of a delivery whose only send
succeeds is absent from disk on return. -/
theorem c4_cleanup_witness :
    "A" ∈ (forward_embed_to_discord
        ⟨false, true, true, DlResult.noPhoto, DlResult.ok "A", false,
          DlResult.noPhoto, true, fun _ => true⟩ 1 "a").attached ∧
    "A" ∉ (forward_embed_to_discord
        ⟨false, true, true, DlResult.noPhoto, DlResult.ok "A", false,
          DlResult.noPhoto, true, fun _ => true⟩ 1 "a").disk :=
  ⟨by decide,
   c4_cleanup
     ⟨false, true, true, DlResult.noPhoto, DlResult.ok "A", false,
       DlResult.noPhoto, true, fun _ => true⟩ 1 "a" "A" (by decide)⟩

/-- Character-wise lower-casing, embedding Python's `str.lower()` as used on
tags and role names in core.py lines 180-196. -/
def lowerStr (s : String) : String :=
  String.mk (s.toList.map Char.toLower)

/-- A destination server role, with `mention` producing the destination
native role mention. -/
structure Role where
  name : String
  id : Nat
deriving DecidableEq

/-- Native mention produced by a Discord role object. -/
def Role.mention (rl : Role) : String :=
  "<@&" ++ toString rl.id ++ ">"

/-- Embedding of `is_builtin_mention` (core.py lines 194-196): the lowered
role name is tested for membership in the built-in role list verbatim. -/
def is_builtin_mention (roleName : String) (builtins : List String) : Bool :=
  builtins.contains (lowerStr roleName)

/-- Embedding of `discord.utils.get(server_roles, name=role_name)`: the first
role whose name equals the given name exactly, if any. -/
def utilsGet (serverRoles : List Role) (n : String) : Option Role :=
  serverRoles.find? (fun rl => rl.name == n)

/-- Dictionary lookup of the mention-override table, embedding
`mention_override[tag.lower()]` guarded by `tag.lower() in mention_override`. -/
def dictLookup (ov : List (String × List String)) (k : String) :
    Option (List String) :=
  (ov.find? (fun kv => kv.1 == k)).map Prod.snd

/-- Resolution of the configured role names of one matched override tag
(core.py lines 183-189): a built-in name adds `"@" + role_name`, otherwise a
server role found by exact name adds its native mention, and names matching
neither are skipped; the accumulating set is embedded as duplicate-free
insertion. -/
def addRoleNames (builtins : List String) (serverRoles : List Role) :
    List String → List String → List String
  | acc, [] => acc
  | acc, n :: ns =>
    addRoleNames builtins serverRoles
      (if is_builtin_mention n builtins then acc.insert ("@" ++ n)
       else
         match utilsGet serverRoles n with
         | some rl => acc.insert rl.mention
         | none => acc) ns

/-- Processing of one hashtag (core.py lines 179-189): resolve its override
entry, if any. -/
def processTag (ov : List (String × List String)) (builtins : List String)
    (serverRoles : List Role) (acc : List String) (tag : String) :
    List String :=
  match dictLookup ov (lowerStr tag) with
  | some names => addRoleNames builtins serverRoles acc names
  | none => acc

/-- Embedding of `get_mention_roles` (core.py lines 172-191).  The Python
`set` is embedded as a duplicate-free list; `list(mention_roles)` has
unspecified order, so the theorems speak of membership and nodup-ness. -/
def get_mention_roles (tags : List String) (ov : List (String × List String))
    (builtins : List String) (serverRoles : List Role) : List String :=
  tags.foldl (processTag ov builtins serverRoles) []

/-- Mention produced for one configured role name, as the code computes it. -/
def resolvesTo (builtins : List String) (serverRoles : List Role)
    (n x : String) : Prop :=
  (is_builtin_mention n builtins = true ∧ x = "@" ++ n) ∨
  (is_builtin_mention n builtins = false ∧
    ∃ rl, utilsGet serverRoles n = some rl ∧ x = rl.mention)

/-- Membership in the accumulator after resolving a single role name. -/
theorem mem_step (builtins : List String) (serverRoles : List Role)
    (acc : List String) (n x : String) :
    (x ∈ (if is_builtin_mention n builtins then acc.insert ("@" ++ n)
          else
            match utilsGet serverRoles n with
            | some rl => acc.insert rl.mention
            | none => acc)) ↔
      x ∈ acc ∨ resolvesTo builtins serverRoles n x := by
  cases hb : is_builtin_mention n builtins with
  | true =>
    simp only [hb, if_true, List.mem_insert_iff, resolvesTo]
    simp
    exact or_comm
  | false =>
    cases hg : utilsGet serverRoles n with
    | none => simp [hb, hg, resolvesTo]
    | some rl =>
      simp only [hb, if_false, hg, List.mem_insert_iff, resolvesTo]
      simp
      exact or_comm

/-- Membership in the accumulator after resolving one tag's role names. -/
theorem mem_addRoleNames (builtins : List String) (serverRoles : List Role)
    (x : String) :
    ∀ (ns acc : List String),
      x ∈ addRoleNames builtins serverRoles acc ns ↔
        x ∈ acc ∨ ∃ n ∈ ns, resolvesTo builtins serverRoles n x := by
  intro ns
  induction ns with
  | nil => intro acc; simp [addRoleNames]
  | cons n ns ih =>
    intro acc
    rw [addRoleNames, ih, mem_step]
    constructor
    · rintro ((hx | hres) | ⟨n2, hn2, hres2⟩)
      · exact Or.inl hx
      · exact Or.inr ⟨n, List.mem_cons_self n ns, hres⟩
      · exact Or.inr ⟨n2, List.mem_cons_of_mem _ hn2, hres2⟩
    · rintro (hx | ⟨n2, hn2, hres2⟩)
      · exact Or.inl (Or.inl hx)
      · rcases List.mem_cons.mp hn2 with rfl | hn2
        · exact Or.inl (Or.inr hres2)
        · exact Or.inr ⟨n2, hn2, hres2⟩

/-- Duplicate-freeness is preserved by resolving one tag's role names. -/
theorem nodup_addRoleNames (builtins : List String) (serverRoles : List Role) :
    ∀ (ns acc : List String), acc.Nodup →
      (addRoleNames builtins serverRoles acc ns).Nodup := by
  intro ns
  induction ns with
  | nil => intro acc h; simpa [addRoleNames] using h
  | cons n ns ih =>
    intro acc h
    rw [addRoleNames]
    apply ih
    cases hb : is_builtin_mention n builtins with
    | true => simpa [hb] using h.insert
    | false =>
      cases hg : utilsGet serverRoles n with
      | none => simpa [hb, hg] using h
      | some rl => simpa [hb, hg] using h.insert

/-- Membership in the folded accumulator over the message's hashtags. -/
theorem mem_foldl_processTag (ov : List (String × List String))
    (builtins : List String) (serverRoles : List Role) (x : String) :
    ∀ (tags acc : List String),
      x ∈ tags.foldl (processTag ov builtins serverRoles) acc ↔
        x ∈ acc ∨ ∃ t ∈ tags, ∃ names,
          dictLookup ov (lowerStr t) = some names ∧
          ∃ n ∈ names, resolvesTo builtins serverRoles n x := by
  intro tags
  induction tags with
  | nil => intro acc; simp
  | cons t ts ih =>
    intro acc
    simp only [List.foldl_cons]
    rw [ih]
    unfold processTag
    cases hd : dictLookup ov (lowerStr t) with
    | none =>
      constructor
      · rintro (hx | ⟨t2, ht2, rest⟩)
        · exact Or.inl hx
        · exact Or.inr ⟨t2, List.mem_cons_of_mem _ ht2, rest⟩
      · rintro (hx | ⟨t2, ht2, names, hn, rest⟩)
        · exact Or.inl hx
        · rcases List.mem_cons.mp ht2 with rfl | ht2
          · rw [hd] at hn; cases hn
          · exact Or.inr ⟨t2, ht2, names, hn, rest⟩
    | some names =>
      rw [mem_addRoleNames]
      constructor
      · rintro ((hx | ⟨n, hn, hres⟩) | ⟨t2, ht2, rest⟩)
        · exact Or.inl hx
        · exact Or.inr ⟨t, List.mem_cons_self t ts, names, hd, n, hn, hres⟩
        · exact Or.inr ⟨t2, List.mem_cons_of_mem _ ht2, rest⟩
      · rintro (hx | ⟨t2, ht2, names2, hd2, hn2⟩)
        · exact Or.inl (Or.inl hx)
        · rcases List.mem_cons.mp ht2 with rfl | ht2
          · rw [hd] at hd2
            injection hd2 with he
            subst he
            exact Or.inl (Or.inr hn2)
          · exact Or.inr ⟨t2, ht2, names2, hd2, hn2⟩

/-- Duplicate-freeness is preserved across the fold over hashtags. -/
theorem nodup_foldl_processTag (ov : List (String × List String))
    (builtins : List String) (serverRoles : List Role) :
    ∀ (tags acc : List String), acc.Nodup →
      (tags.foldl (processTag ov builtins serverRoles) acc).Nodup := by
  intro tags
  induction tags with
  | nil => intro acc h; simpa using h
  | cons t ts ih =>
    intro acc h
    simp only [List.foldl_cons]
    apply ih
    unfold processTag
    cases hd : dictLookup ov (lowerStr t) with
    | none => simpa using h
    | some names => simpa using nodup_addRoleNames builtins serverRoles names acc h

/-- Claim C6 counterexample: with override table
`{"#alert": ["admins", "@here"]}`, built-ins `["@here","@everyone"]`, a
message tagged `#alert` and no server roles, resolution yields `"@@here"`
(the configured name prefixed with `"@"`), not the built-in mention
`"@here"` the claim requires. -/
theorem c6_mention_cex :
    get_mention_roles ["#alert"] [("#alert", ["admins", "@here"])]
        ["@here", "@everyone"] [] = ["@@here"] ∧
    "@here" ∉ get_mention_roles ["#alert"] [("#alert", ["admins", "@here"])]
        ["@here", "@everyone"] [] := by
  decide

/-- Claim C6 as amended: a token whose lowering is a key of the override
table resolves each configured target name either to `"@" ++ name` when the
lowered name appears verbatim in the built-in role list, or to the native
mention of the first server role matching the name exactly; names matching
neither are silently skipped, and the result is duplicate-free — so with
table `{"#alert": ["admins", "@here"]}` and built-ins `["@here","@everyone"]`
a message tagged `#alert` yields `"@@here"` plus the mention of a role named
"admins" when one exists, and omits it otherwise. -/
theorem c6_mention_resolution (tags : List String)
    (ov : List (String × List String)) (builtins : List String)
    (serverRoles : List Role) (x : String) :
    (x ∈ get_mention_roles tags ov builtins serverRoles ↔
      ∃ t ∈ tags, ∃ names, dictLookup ov (lowerStr t) = some names ∧
        ∃ n ∈ names, resolvesTo builtins serverRoles n x) ∧
    (get_mention_roles tags ov builtins serverRoles).Nodup := by
  constructor
  · rw [get_mention_roles, mem_foldl_processTag]
    simp
  · exact nodup_foldl_processTag ov builtins serverRoles tags [] List.nodup_nil

end Bridge
